import Mathlib

/-!
Shallow embedding of the VoxGuard voice-authenticity service (src/main.py).
Python floats are modelled as exact rationals; the external collaborators
(the audio codec, the librosa feature extractors and the pretrained language
model) are opaque, so their outputs on a given upload are carried as fields
of the request/clip values, and the handler logic that consumes them is
translated directly from the source.
-/

namespace VoxGuard

/-- The fixed shared secret, src/main.py line 17. -/
def API_KEY : String := "my_secret_key_123"

/-- The language-code to display-label table, src/main.py lines 33-39. -/
def LANGUAGE_LABELS : List (String × String) :=
  [("en", "English"), ("ta", "Tamil"), ("hi", "Hindi"), ("te", "Telugu"), ("ml", "Malayalam")]

/-- Python dict .get with a default: first binding of the key, else the default.
Embeds LANGUAGE_LABELS.get(lang_code, "Unknown"), src/main.py line 68. -/
def dictGet (code : String) (table : List (String × String)) (dflt : String) : String :=
  match table with
  | [] => dflt
  | (k, v) :: rest => if k = code then v else dictGet code rest dflt

/-- The four scalar statistics computed by the acoustic feature extractor
(librosa calls inside analyze_voice_nature, src/main.py lines 78-93). The
extractor itself is an external collaborator; the scorer consumes its output. -/
structure FeatureVector where
  spectralFlatnessMean : ℚ
  energyVariance : ℚ
  pitchVariance : ℚ
  onsetVariance : ℚ
deriving DecidableEq

/-- The scoring rule of analyze_voice_nature, src/main.py lines 95-106:
start at 0, add a fixed weight for each strict-inequality condition that
holds, return min(score, 1.0). -/
def analyze_voice_nature (fv : FeatureVector) : ℚ :=
  let score : ℚ := 0
  let score := if fv.spectralFlatnessMean < 0.018 then score + 0.35 else score
  let score := if fv.energyVariance < 0.0015 then score + 0.25 else score
  let score := if fv.pitchVariance < 12 then score + 0.25 else score
  let score := if fv.onsetVariance < 0.02 then score + 0.15 else score
  min score 1

/-- The weighted sum exactly as the spec's table in section 4.4 states it
(one weight per satisfied condition, no cap); used to compare the source
scorer against the spec's wording. -/
def specWeightedSum (fv : FeatureVector) : ℚ :=
  (if fv.spectralFlatnessMean < 0.018 then (0.35 : ℚ) else 0)
    + (if fv.energyVariance < 0.0015 then (0.25 : ℚ) else 0)
    + (if fv.pitchVariance < 12 then (0.25 : ℚ) else 0)
    + (if fv.onsetVariance < 0.02 then (0.15 : ℚ) else 0)

/-- Python max(probs, key=probs.get), src/main.py line 66: the first entry of
maximal probability (Python max keeps the earlier element on ties); none on an
empty table (there Python max raises, which the surrounding except catches). -/
def argmaxProb : List (String × ℚ) → Option (String × ℚ)
  | [] => none
  | cp :: rest =>
    match argmaxProb rest with
    | none => some cp
    | some best => if cp.2 < best.2 then some best else some cp

/-- identify_language, src/main.py lines 51-72. Resampling, lazy model
loading, pad_or_trim, the mel spectrogram and model.detect_language are
external steps; their combined outcome is the argument: none when any of them
raised (the except branch returns "Unknown"), some probs when the model
produced a probability table over language codes. -/
def identify_language (modelOutcome : Option (List (String × ℚ))) : String :=
  match modelOutcome with
  | none => "Unknown"
  | some probs =>
    match argmaxProb probs with
    | none => "Unknown"
    | some best => dictGet best.1 LANGUAGE_LABELS "Unknown"

/-- Python name.lower().endswith(suffix), on the character sequences of the
strings (lowercasing is the ASCII case map, which covers the two ASCII
suffixes the handler tests). -/
def lowerEndsWith (name suffix : String) : Bool :=
  suffix.data.isSuffixOf (name.data.map Char.toLower)

/-- file.filename.lower().endswith((".mp3", ".wav")), src/main.py line 245. -/
def hasAllowedExt (name : String) : Bool :=
  lowerEndsWith name ".mp3" || lowerEndsWith name ".wav"

/-- Round to nearest integer, ties to even: the rounding Python's round
applies (here always to exact hundredths, where ties cannot arise). -/
def roundHalfEven (q : ℚ) : ℤ :=
  if q - ⌊q⌋ = 1 / 2 then 2 * round (q / 2) else round q

/-- Python round(x, 2) on exact rationals, src/main.py lines 263 and 270. -/
def round2 (q : ℚ) : ℚ := (roundHalfEven (q * 100) : ℚ) / 100

/-- HTTP outcome of the handler: an HTTPException (status, detail) or the
JSON success body of src/main.py lines 272-276. -/
inductive Response where
  | error (status : Nat) (detail : String)
  | ok (classification : String) (confidence : ℚ) (detected_language : String)
deriving DecidableEq

/-- The classification field of a success response, none on an error. -/
def classificationOf : Response → Option String
  | Response.ok c _ _ => some c
  | Response.error _ _ => none

/-- The handler steps the claims talk about; detect_voice also returns the
list of steps it executed, in execution order. analyze stands for the call
to analyze_voice_nature (feature extraction together with scoring, since the
librosa feature calls live inside that function). -/
inductive Event where
  | authCheck
  | extCheck
  | decode
  | langId
  | analyze
deriving DecidableEq

/-- A decoded clip together with the outputs the external collaborators
would produce on it: sample count and sample rate from librosa.load, the
four statistics the feature extractor computes, and the language-model
outcome fed to identify_language. -/
structure AudioClip where
  numSamples : Nat
  sampleRate : Nat
  features : FeatureVector
  langOutcome : Option (List (String × ℚ))

/-- One request to POST /detect-voice: the x-api-key header (none when the
header is missing), the uploaded filename, and the decode outcome
librosa.load would give on the uploaded bytes (none when decoding raises). -/
structure Request where
  x_api_key : Option String
  filename : String
  decoded : Option AudioClip

/-- The detect_voice handler, src/main.py lines 237-280, paired with the
trace of executed steps. -/
def detect_voice (req : Request) : Response × List Event :=
  if req.x_api_key ≠ some API_KEY then
    (Response.error 401 "Access denied.", [Event.authCheck])
  else if ¬ hasAllowedExt req.filename then
    (Response.error 400 "Upload MP3 or WAV audio.", [Event.authCheck, Event.extCheck])
  else
    match req.decoded with
    | none =>
      (Response.error 500 "Audio processing failed.",
        [Event.authCheck, Event.extCheck, Event.decode])
    | some clip =>
      let detected_language := identify_language clip.langOutcome
      if clip.numSamples < clip.sampleRate then
        (Response.ok "Human Voice" (1 / 2) detected_language,
          [Event.authCheck, Event.extCheck, Event.decode, Event.langId])
      else
        let ai_probability := round2 (analyze_voice_nature clip.features)
        if 0.8 ≤ ai_probability then
          (Response.ok "AI-Generated Voice" ai_probability detected_language,
            [Event.authCheck, Event.extCheck, Event.decode, Event.langId, Event.analyze])
        else
          (Response.ok "Human Voice" (round2 (1 - ai_probability)) detected_language,
            [Event.authCheck, Event.extCheck, Event.decode, Event.langId, Event.analyze])

/-- Modelled from the spec: the stricter near-duplicate variant of the
detect-voice handler described in spec sections 4.5, 6 and 9, whose source is
not under src/ (src/main.py is the looser variant, with no duration cap).
Per the spec it differs in the error details ("Invalid API Key",
"Upload WAV or MP3 only") and rejects decoded audio whose duration exceeds
15 seconds with 400 "Audio too long. Max 15 seconds allowed." instead of
truncating or scoring it. -/
def detect_voice_strict (req : Request) : Response × List Event :=
  if req.x_api_key ≠ some API_KEY then
    (Response.error 401 "Invalid API Key", [Event.authCheck])
  else if ¬ hasAllowedExt req.filename then
    (Response.error 400 "Upload WAV or MP3 only", [Event.authCheck, Event.extCheck])
  else
    match req.decoded with
    | none =>
      (Response.error 500 "Audio processing failed.",
        [Event.authCheck, Event.extCheck, Event.decode])
    | some clip =>
      if 15 * clip.sampleRate < clip.numSamples then
        (Response.error 400 "Audio too long. Max 15 seconds allowed.",
          [Event.authCheck, Event.extCheck, Event.decode])
      else
        let detected_language := identify_language clip.langOutcome
        if clip.numSamples < clip.sampleRate then
          (Response.ok "Human Voice" (1 / 2) detected_language,
            [Event.authCheck, Event.extCheck, Event.decode, Event.langId])
        else
          let ai_probability := round2 (analyze_voice_nature clip.features)
          if 0.8 ≤ ai_probability then
            (Response.ok "AI-Generated Voice" ai_probability detected_language,
              [Event.authCheck, Event.extCheck, Event.decode, Event.langId, Event.analyze])
          else
            (Response.ok "Human Voice" (round2 (1 - ai_probability)) detected_language,
              [Event.authCheck, Event.extCheck, Event.decode, Event.langId, Event.analyze])

lemma roundHalfEven_intCast (n : ℤ) : roundHalfEven (n : ℚ) = n := by
  unfold roundHalfEven
  rw [Int.floor_intCast]
  simp only [sub_self]
  rw [if_neg (by norm_num)]
  exact round_intCast n

lemma round2_hundredths (n : ℤ) : round2 ((n : ℚ) / 100) = (n : ℚ) / 100 := by
  unfold round2
  rw [div_mul_cancel₀ _ (by norm_num : (100 : ℚ) ≠ 0), roundHalfEven_intCast]

lemma analyze_eq_specSum (fv : FeatureVector) :
    analyze_voice_nature fv = specWeightedSum fv := by
  simp only [analyze_voice_nature, specWeightedSum]
  split_ifs <;> norm_num

lemma specSum_le_one (fv : FeatureVector) : specWeightedSum fv ≤ 1 := by
  simp only [specWeightedSum]
  split_ifs <;> norm_num

lemma analyze_round2_eq (fv : FeatureVector) :
    round2 (analyze_voice_nature fv) = analyze_voice_nature fv := by
  simp only [analyze_voice_nature]
  split_ifs <;> norm_num [round2, roundHalfEven]

lemma round2_one : round2 1 = 1 := by norm_num [round2, roundHalfEven]

lemma score_ai_iff (fv : FeatureVector) :
    (0.8 : ℚ) ≤ analyze_voice_nature fv ↔
      (fv.spectralFlatnessMean < 0.018 ∧ fv.energyVariance < 0.0015 ∧
        fv.pitchVariance < 12) := by
  by_cases h1 : fv.spectralFlatnessMean < 0.018 <;>
    by_cases h2 : fv.energyVariance < 0.0015 <;>
      by_cases h3 : fv.pitchVariance < 12 <;>
        by_cases h4 : fv.onsetVariance < 0.02 <;>
          simp [analyze_voice_nature, h1, h2, h3, h4] <;> norm_num

/-- The scored path of the handler: with a valid key, an accepted extension,
a successful decode and at least one second of audio, detect_voice runs all
five steps and decides from the rounded score. -/
lemma detect_voice_long (req : Request) (clip : AudioClip)
    (hkey : req.x_api_key = some API_KEY)
    (hext : hasAllowedExt req.filename = true)
    (hdec : req.decoded = some clip)
    (hdur : clip.sampleRate ≤ clip.numSamples) :
    detect_voice req =
      ((if (0.8 : ℚ) ≤ analyze_voice_nature clip.features then
          Response.ok "AI-Generated Voice" (round2 (analyze_voice_nature clip.features))
            (identify_language clip.langOutcome)
        else
          Response.ok "Human Voice" (round2 (1 - analyze_voice_nature clip.features))
            (identify_language clip.langOutcome)),
        [Event.authCheck, Event.extCheck, Event.decode, Event.langId, Event.analyze]) := by
  simp [detect_voice, hkey, hext, hdec, Nat.not_lt.mpr hdur, analyze_round2_eq]
  split_ifs <;> rfl

/-- The short-clip path of the handler: fewer samples than the sample rate
answers the fixed low-confidence default after language identification. -/
lemma detect_voice_short (req : Request) (clip : AudioClip)
    (hkey : req.x_api_key = some API_KEY)
    (hext : hasAllowedExt req.filename = true)
    (hdec : req.decoded = some clip)
    (hshort : clip.numSamples < clip.sampleRate) :
    detect_voice req =
      (Response.ok "Human Voice" (1 / 2) (identify_language clip.langOutcome),
        [Event.authCheck, Event.extCheck, Event.decode, Event.langId]) := by
  simp [detect_voice, hkey, hext, hdec, hshort]

lemma argmaxProb_spec (l : List (String × ℚ)) (hne : l ≠ []) :
    ∃ best, argmaxProb l = some best ∧ best ∈ l ∧ ∀ x ∈ l, x.2 ≤ best.2 := by
  induction l with
  | nil => exact absurd rfl hne
  | cons cp rest ih =>
    by_cases hr : rest = []
    · subst hr
      refine ⟨cp, by simp [argmaxProb], by simp, ?_⟩
      intro x hx
      simp at hx
      subst hx
      exact le_refl _
    · obtain ⟨b, hb, hbmem, hbmax⟩ := ih hr
      by_cases hlt : cp.2 < b.2
      · refine ⟨b, by simp [argmaxProb, hb, hlt], List.mem_cons_of_mem _ hbmem, ?_⟩
        intro x hx
        rcases List.mem_cons.mp hx with h | h
        · subst h
          exact le_of_lt hlt
        · exact hbmax x h
      · refine ⟨cp, by simp [argmaxProb, hb, hlt], List.mem_cons_self cp rest, ?_⟩
        intro x hx
        rcases List.mem_cons.mp hx with h | h
        · subst h
          exact le_refl _
        · exact le_trans (hbmax x h) (not_lt.mp hlt)

/-- When one code's probability strictly dominates every other code's,
identify_language answers that code's table lookup. -/
lemma identify_language_top (probs : List (String × ℚ)) (code : String) (p : ℚ)
    (hmem : (code, p) ∈ probs)
    (htop : ∀ x ∈ probs, x.1 ≠ code → x.2 < p) :
    identify_language (some probs) = dictGet code LANGUAGE_LABELS "Unknown" := by
  obtain ⟨best, hb, hbmem, hbmax⟩ :=
    argmaxProb_spec probs (by rintro rfl; simp at hmem)
  have hcode : best.1 = code := by
    by_contra hne
    have h1 := htop best hbmem hne
    have h2 := hbmax (code, p) hmem
    exact absurd h1 (not_lt.mpr h2)
  simp [identify_language, hb, hcode]

/-- The satisfied-condition set of the first vector is contained in that of
the second: every scorer condition the first satisfies, the second does. -/
def condSubset (a b : FeatureVector) : Prop :=
  (a.spectralFlatnessMean < 0.018 → b.spectralFlatnessMean < 0.018) ∧
    (a.energyVariance < 0.0015 → b.energyVariance < 0.0015) ∧
    (a.pitchVariance < 12 → b.pitchVariance < 12) ∧
    (a.onsetVariance < 0.02 → b.onsetVariance < 0.02)

lemma ite_weight_mono {p q : Prop} [Decidable p] [Decidable q] (w : ℚ)
    (hw : 0 ≤ w) (h : p → q) :
    (if p then w else 0) ≤ (if q then w else 0) := by
  split_ifs with hp hq
  · exact le_refl w
  · exact absurd (h hp) hq
  · exact hw
  · exact le_refl 0

/-- Claim C1: the Authenticity Scorer returns exactly the sum of the weights
of the satisfied strict-inequality conditions, capped at 1.0, and the cap is
a no-op because the sum before capping never exceeds 1.0. -/
theorem analyze_is_weight_sum_cap_noop (fv : FeatureVector) :
    analyze_voice_nature fv = min (specWeightedSum fv) 1
      ∧ analyze_voice_nature fv = specWeightedSum fv
      ∧ specWeightedSum fv ≤ 1 :=
  ⟨by rw [analyze_eq_specSum, min_eq_left (specSum_le_one fv)],
    analyze_eq_specSum fv, specSum_le_one fv⟩

/-- Claim C5: the AuthenticityScore is monotonic in the set of satisfied
threshold conditions: if the first vector's satisfied conditions form a
subset of the second's, its score is no larger. -/
theorem score_monotone_in_conditions (a b : FeatureVector) (h : condSubset a b) :
    analyze_voice_nature a ≤ analyze_voice_nature b := by
  rw [analyze_eq_specSum, analyze_eq_specSum]
  obtain ⟨h1, h2, h3, h4⟩ := h
  exact add_le_add
    (add_le_add
      (add_le_add (ite_weight_mono _ (by norm_num) h1) (ite_weight_mono _ (by norm_num) h2))
      (ite_weight_mono _ (by norm_num) h3))
    (ite_weight_mono _ (by norm_num) h4)

/-- Witness for C5 at a concrete pair: no condition satisfied versus all
four satisfied. -/
theorem score_monotone_in_conditions_witness :
    analyze_voice_nature ⟨1, 1, 12, 1⟩ ≤ analyze_voice_nature ⟨0, 0, 0, 0⟩ :=
  score_monotone_in_conditions ⟨1, 1, 12, 1⟩ ⟨0, 0, 0, 0⟩ (by norm_num [condSubset])

/-- Claim C8: a missing or wrong x-api-key header is answered 401 before any
file validation or decoding: the trace holds only the auth check. -/
theorem auth_rejected_first (req : Request) (hkey : req.x_api_key ≠ some API_KEY) :
    (detect_voice req).1 = Response.error 401 "Access denied."
      ∧ (detect_voice req).2 = [Event.authCheck] := by
  simp [detect_voice, hkey]

/-- Witness for C8: a request with no x-api-key header at all. -/
theorem auth_rejected_first_witness :
    (detect_voice ⟨none, "voice.wav", none⟩).1 = Response.error 401 "Access denied."
      ∧ (detect_voice ⟨none, "voice.wav", none⟩).2 = [Event.authCheck] :=
  auth_rejected_first ⟨none, "voice.wav", none⟩ (by decide)

/-- Counterexample to C7 as stated: with the valid key and filename
"clip.txt" the handler in src/main.py answers 400 with detail
"Upload MP3 or WAV audio.", not "Upload WAV or MP3 only". -/
theorem wrong_extension_detail_counterexample :
    (detect_voice ⟨some API_KEY, "clip.txt", none⟩).1
        = Response.error 400 "Upload MP3 or WAV audio."
      ∧ (detect_voice ⟨some API_KEY, "clip.txt", none⟩).1
        ≠ Response.error 400 "Upload WAV or MP3 only" := by
  have hx : hasAllowedExt "clip.txt" = false := by decide
  constructor
  · simp [detect_voice, hx]
  · simp [detect_voice, hx]

/-- Claim C7 amended: after a valid key, a filename not ending in ".wav" or
".mp3" case-insensitively is answered 400 with detail
"Upload MP3 or WAV audio.", and decoding is never attempted. -/
theorem wrong_extension_rejected (req : Request)
    (hkey : req.x_api_key = some API_KEY)
    (hext : hasAllowedExt req.filename = false) :
    (detect_voice req).1 = Response.error 400 "Upload MP3 or WAV audio."
      ∧ Event.decode ∉ (detect_voice req).2 := by
  have h : detect_voice req =
      (Response.error 400 "Upload MP3 or WAV audio.", [Event.authCheck, Event.extCheck]) := by
    simp [detect_voice, hkey, hext]
  rw [h]
  exact ⟨rfl, by decide⟩

/-- Witness for amended C7: a ".txt" upload with the valid key and a
decodable payload is still rejected without a decode step. -/
theorem wrong_extension_rejected_witness :
    (detect_voice ⟨some API_KEY, "notes.txt", some ⟨16000, 16000, ⟨0, 0, 0, 0⟩, none⟩⟩).1
        = Response.error 400 "Upload MP3 or WAV audio."
      ∧ Event.decode ∉
        (detect_voice ⟨some API_KEY, "notes.txt", some ⟨16000, 16000, ⟨0, 0, 0, 0⟩, none⟩⟩).2 :=
  wrong_extension_rejected ⟨some API_KEY, "notes.txt", some ⟨16000, 16000, ⟨0, 0, 0, 0⟩, none⟩⟩
    rfl (by decide)

/-- Claim C3: a decoded clip with fewer samples than the sample rate
short-circuits to classification "Human Voice" with confidence exactly 0.5,
whatever the four feature statistics are, and the feature-extraction and
scoring step is never executed. -/
theorem short_clip_short_circuit (req : Request) (clip : AudioClip)
    (hkey : req.x_api_key = some API_KEY)
    (hext : hasAllowedExt req.filename = true)
    (hdec : req.decoded = some clip)
    (hshort : clip.numSamples < clip.sampleRate) :
    (detect_voice req).1
        = Response.ok "Human Voice" (1 / 2) (identify_language clip.langOutcome)
      ∧ Event.analyze ∉ (detect_voice req).2 := by
  rw [detect_voice_short req clip hkey hext hdec hshort]
  exact ⟨rfl, by simp⟩

/-- Witness for C3: a half-second clip whose features would otherwise score
1.0 still answers the 0.5-confidence human default. -/
theorem short_clip_short_circuit_witness :
    (detect_voice ⟨some API_KEY, "breath.wav", some ⟨8000, 16000, ⟨0, 0, 0, 0⟩, none⟩⟩).1
        = Response.ok "Human Voice" (1 / 2) "Unknown"
      ∧ Event.analyze ∉
        (detect_voice ⟨some API_KEY, "breath.wav", some ⟨8000, 16000, ⟨0, 0, 0, 0⟩, none⟩⟩).2 := by
  have h := short_clip_short_circuit
    ⟨some API_KEY, "breath.wav", some ⟨8000, 16000, ⟨0, 0, 0, 0⟩, none⟩⟩
    ⟨8000, 16000, ⟨0, 0, 0, 0⟩, none⟩ rfl (by decide) rfl (by norm_num)
  simpa [identify_language] using h

/-- Claim C2: with at least one second of decoded audio, a score of at
least 0.8 classifies "AI-Generated Voice" with confidence the score rounded
to 2 decimals, and otherwise "Human Voice" with confidence 1 minus the
score, rounded to 2 decimals. -/
theorem decision_from_score (req : Request) (clip : AudioClip)
    (hkey : req.x_api_key = some API_KEY)
    (hext : hasAllowedExt req.filename = true)
    (hdec : req.decoded = some clip)
    (hdur : clip.sampleRate ≤ clip.numSamples) :
    (detect_voice req).1 =
      if (0.8 : ℚ) ≤ analyze_voice_nature clip.features then
        Response.ok "AI-Generated Voice" (round2 (analyze_voice_nature clip.features))
          (identify_language clip.langOutcome)
      else
        Response.ok "Human Voice" (round2 (1 - analyze_voice_nature clip.features))
          (identify_language clip.langOutcome) := by
  rw [detect_voice_long req clip hkey hext hdec hdur]

/-- Witness for C2: features scoring 0.65 classify human with confidence
0.35. -/
theorem decision_from_score_witness :
    (detect_voice ⟨some API_KEY, "sample.wav",
        some ⟨44100, 22050, ⟨1, 0, 0, 0⟩, none⟩⟩).1
      = Response.ok "Human Voice" (7 / 20) "Unknown" := by
  have h := decision_from_score
    ⟨some API_KEY, "sample.wav", some ⟨44100, 22050, ⟨1, 0, 0, 0⟩, none⟩⟩
    ⟨44100, 22050, ⟨1, 0, 0, 0⟩, none⟩ rfl (by decide) rfl (by norm_num)
  rw [h]
  norm_num [analyze_voice_nature, identify_language, round2, roundHalfEven]

/-- Claim C4: all four statistics at or above their thresholds give score
0.0 and a "Human Voice" answer with confidence 1.0; all four strictly below
give score 1.0 and an "AI-Generated Voice" answer with confidence 1.0. -/
theorem extreme_feature_outcomes (req : Request) (clip : AudioClip)
    (hkey : req.x_api_key = some API_KEY)
    (hext : hasAllowedExt req.filename = true)
    (hdec : req.decoded = some clip)
    (hdur : clip.sampleRate ≤ clip.numSamples) :
    ((0.018 ≤ clip.features.spectralFlatnessMean ∧ 0.0015 ≤ clip.features.energyVariance ∧
        12 ≤ clip.features.pitchVariance ∧ 0.02 ≤ clip.features.onsetVariance) →
      analyze_voice_nature clip.features = 0 ∧
        (detect_voice req).1
          = Response.ok "Human Voice" 1 (identify_language clip.langOutcome))
    ∧ ((clip.features.spectralFlatnessMean < 0.018 ∧ clip.features.energyVariance < 0.0015 ∧
        clip.features.pitchVariance < 12 ∧ clip.features.onsetVariance < 0.02) →
      analyze_voice_nature clip.features = 1 ∧
        (detect_voice req).1
          = Response.ok "AI-Generated Voice" 1 (identify_language clip.langOutcome)) := by
  have hlong := detect_voice_long req clip hkey hext hdec hdur
  constructor
  · rintro ⟨ha, hb, hc, hd⟩
    have h0 : analyze_voice_nature clip.features = 0 := by
      simp [analyze_voice_nature, not_lt.mpr ha, not_lt.mpr hb, not_lt.mpr hc, not_lt.mpr hd]
    refine ⟨h0, ?_⟩
    rw [hlong, h0]
    norm_num [round2, roundHalfEven]
  · rintro ⟨ha, hb, hc, hd⟩
    have h1 : analyze_voice_nature clip.features = 1 := by
      simp [analyze_voice_nature, ha, hb, hc, hd]
      norm_num
    refine ⟨h1, ?_⟩
    rw [hlong, h1]
    norm_num [round2, roundHalfEven]

/-- Witness for C4: statistics exactly at every threshold score 0 and
answer human with confidence 1. -/
theorem extreme_feature_outcomes_witness :
    analyze_voice_nature ⟨0.018, 0.0015, 12, 0.02⟩ = 0
      ∧ (detect_voice ⟨some API_KEY, "speech.mp3",
          some ⟨48000, 24000, ⟨0.018, 0.0015, 12, 0.02⟩, none⟩⟩).1
        = Response.ok "Human Voice" 1 "Unknown" := by
  have h := (extreme_feature_outcomes
    ⟨some API_KEY, "speech.mp3", some ⟨48000, 24000, ⟨0.018, 0.0015, 12, 0.02⟩, none⟩⟩
    ⟨48000, 24000, ⟨0.018, 0.0015, 12, 0.02⟩, none⟩
    rfl (by decide) rfl (by norm_num)).1 (by norm_num)
  simpa [identify_language] using h

/-- Claim C6 (stricter variant, modelled from the spec): decoded audio
longer than 15 seconds is answered 400 "Audio too long. Max 15 seconds
allowed." and is never scored. -/
theorem long_audio_rejected_strict (req : Request) (clip : AudioClip)
    (hkey : req.x_api_key = some API_KEY)
    (hext : hasAllowedExt req.filename = true)
    (hdec : req.decoded = some clip)
    (hlong : 15 * clip.sampleRate < clip.numSamples) :
    (detect_voice_strict req).1
        = Response.error 400 "Audio too long. Max 15 seconds allowed."
      ∧ Event.analyze ∉ (detect_voice_strict req).2 := by
  have h : detect_voice_strict req =
      (Response.error 400 "Audio too long. Max 15 seconds allowed.",
        [Event.authCheck, Event.extCheck, Event.decode]) := by
    simp [detect_voice_strict, hkey, hext, hdec, hlong]
  rw [h]
  exact ⟨rfl, by simp⟩

/-- Witness for C6: a 20-second clip at 16 kHz is rejected by the stricter
variant without scoring. -/
theorem long_audio_rejected_strict_witness :
    (detect_voice_strict ⟨some API_KEY, "long.wav",
        some ⟨320000, 16000, ⟨0, 0, 0, 0⟩, none⟩⟩).1
        = Response.error 400 "Audio too long. Max 15 seconds allowed."
      ∧ Event.analyze ∉ (detect_voice_strict ⟨some API_KEY, "long.wav",
          some ⟨320000, 16000, ⟨0, 0, 0, 0⟩, none⟩⟩).2 :=
  long_audio_rejected_strict
    ⟨some API_KEY, "long.wav", some ⟨320000, 16000, ⟨0, 0, 0, 0⟩, none⟩⟩
    ⟨320000, 16000, ⟨0, 0, 0, 0⟩, none⟩ rfl (by decide) rfl (by norm_num)

/-- Claim C9: language identification is total and best-effort: any failed
step yields "Unknown", a strictly dominant language code is looked up in
the fixed table, and a code absent from the table yields "Unknown". -/
theorem identify_language_total_best_effort :
    identify_language none = "Unknown"
      ∧ (∀ (probs : List (String × ℚ)) (code : String) (p : ℚ),
          (code, p) ∈ probs → (∀ x ∈ probs, x.1 ≠ code → x.2 < p) →
          identify_language (some probs) = dictGet code LANGUAGE_LABELS "Unknown")
      ∧ (∀ code : String, code ∉ LANGUAGE_LABELS.map Prod.fst →
          dictGet code LANGUAGE_LABELS "Unknown" = "Unknown") := by
  refine ⟨rfl, fun probs code p hmem htop => identify_language_top probs code p hmem htop, ?_⟩
  intro code h
  simp [LANGUAGE_LABELS] at h
  obtain ⟨h1, h2, h3, h4, h5⟩ := h
  simp [dictGet, LANGUAGE_LABELS, Ne.symm h1, Ne.symm h2, Ne.symm h3, Ne.symm h4, Ne.symm h5]

/-- Witness for C9: a dominant "en" answers "English", a dominant "fr" is
not in the table and answers "Unknown", a failed pipeline answers
"Unknown". -/
theorem identify_language_total_best_effort_witness :
    identify_language (some [("en", (9 : ℚ) / 10), ("ta", 1 / 10)]) = "English"
      ∧ identify_language (some [("fr", (9 : ℚ) / 10), ("en", 1 / 10)]) = "Unknown"
      ∧ identify_language none = "Unknown" := by
  have h := identify_language_total_best_effort
  refine ⟨?_, ?_, h.1⟩
  · have he := h.2.1 [("en", (9 : ℚ) / 10), ("ta", 1 / 10)] "en" ((9 : ℚ) / 10)
      (by simp) ?_
    · simpa [dictGet, LANGUAGE_LABELS] using he
    · intro x hx hne
      simp at hx
      rcases hx with h' | h'
      · rw [h'] at hne
        exact absurd rfl hne
      · rw [h']
        norm_num
  · have hf := h.2.1 [("fr", (9 : ℚ) / 10), ("en", 1 / 10)] "fr" ((9 : ℚ) / 10)
      (by simp) ?_
    · simpa [dictGet, LANGUAGE_LABELS] using hf
    · intro x hx hne
      simp at hx
      rcases hx with h' | h'
      · rw [h'] at hne
        exact absurd rfl hne
      · rw [h']
        norm_num

/-- Claim C10: with at least one second of audio, the answer is
"AI-Generated Voice" exactly when the spectral-flatness, energy and pitch
conditions all hold; the onset condition never changes the classification. -/
theorem ai_classification_iff (req : Request) (clip : AudioClip)
    (hkey : req.x_api_key = some API_KEY)
    (hext : hasAllowedExt req.filename = true)
    (hdec : req.decoded = some clip)
    (hdur : clip.sampleRate ≤ clip.numSamples) :
    classificationOf (detect_voice req).1 = some "AI-Generated Voice"
      ↔ (clip.features.spectralFlatnessMean < 0.018 ∧
          clip.features.energyVariance < 0.0015 ∧ clip.features.pitchVariance < 12) := by
  rw [detect_voice_long req clip hkey hext hdec hdur, ← score_ai_iff clip.features]
  by_cases hs : (0.8 : ℚ) ≤ analyze_voice_nature clip.features
  · simp [hs, classificationOf]
  · simp [hs, classificationOf]

/-- Witness for C10: the first three conditions hold while the onset
condition fails, and the clip is still classified as AI-generated. -/
theorem ai_classification_iff_witness :
    classificationOf (detect_voice ⟨some API_KEY, "synth.wav",
        some ⟨32000, 16000, ⟨0, 0, 0, 1⟩, none⟩⟩).1 = some "AI-Generated Voice" :=
  (ai_classification_iff
      ⟨some API_KEY, "synth.wav", some ⟨32000, 16000, ⟨0, 0, 0, 1⟩, none⟩⟩
      ⟨32000, 16000, ⟨0, 0, 0, 1⟩, none⟩ rfl (by decide) rfl (by norm_num)).mpr
    (by norm_num)

end VoxGuard
